import Mathlib

/-!
Shallow embedding of the view/session state machine and the document
renderer of the Personalized Video Learning System (src/app.py), with
theorems checking the specification's claims about them.

Modelling conventions:
* The Streamlit session dictionary is modelled by the structure
  `SessionState`, one field per key of `SessionManager.DEFAULT_VALUES`.
* Python dict-valued session entries are modelled as association lists;
  `assessment_questions` and `quiz_performance` (JSON values set by
  excluded collaborators) are modelled abstractly, since only their
  defaults and preservation matter to the state machine.
* Python `str.strip()` is modelled by `String.trim` (both remove the
  whitespace characters that can occur here: space, tab, CR, LF), and
  Python `content.split(chr 10)` by `String.splitOn` with the newline
  string, which agrees with it on every input, including the empty
  string (both yield a single empty piece).
-/

namespace VideoLearning

/-- The eight display modes named by the specification. `Upload` and
`Analysis` are derived states: the code stores only the six `show_*`
flags and derives the rest from `analysis_completed`. -/
inductive View where
  | Upload
  | Analysis
  | DoubtSession
  | Assessment
  | VideoScript
  | VideoGeneration
  | Conclusion
  | PersonalizedPdf
  deriving DecidableEq, Repr

/-- Session state: one field per key of `SessionManager.DEFAULT_VALUES`
in src/app.py (lines 63-82). -/
structure SessionState where
  analysis_completed : Bool
  document_text : String
  analysis_result : String
  assessment_questions : Option String
  show_doubt_session : Bool
  show_assessment : Bool
  show_video_script : Bool
  show_video_generation : Bool
  show_conclusion : Bool
  show_personalized_pdf : Bool
  video_script : String
  video_scripts_by_level : List (String × String)
  generated_videos : List (String × String)
  conclusion_content : String
  quiz_performance : Option (Nat × Nat)
  selected_language : String
  language_code : String
  user_email : String
  deriving DecidableEq, Repr

/-- The default session state, from `SessionManager.DEFAULT_VALUES`. -/
def DEFAULT_VALUES : SessionState :=
  { analysis_completed := false
    document_text := ""
    analysis_result := ""
    assessment_questions := none
    show_doubt_session := false
    show_assessment := false
    show_video_script := false
    show_video_generation := false
    show_conclusion := false
    show_personalized_pdf := false
    video_script := ""
    video_scripts_by_level := []
    generated_videos := []
    conclusion_content := ""
    quiz_performance := none
    selected_language := "English"
    language_code := "en"
    user_email := "" }

/-- Embedding of `SessionManager.set_view` (src/app.py lines 108-113):
each `show_*` key is assigned the truth value of
`key == "show_" + view_name`; nothing else is touched. -/
def set_view (view_name : String) (s : SessionState) : SessionState :=
  { s with
    show_doubt_session := "show_doubt_session" == "show_" ++ view_name
    show_assessment := "show_assessment" == "show_" ++ view_name
    show_video_script := "show_video_script" == "show_" ++ view_name
    show_video_generation := "show_video_generation" == "show_" ++ view_name
    show_conclusion := "show_conclusion" == "show_" ++ view_name
    show_personalized_pdf := "show_personalized_pdf" == "show_" ++ view_name }

/-- Embedding of `SessionManager.reset_analysis` (src/app.py lines
91-106): each key in `reset_keys` is restored to its default, then
every `show_*` flag is set to `False`. -/
def reset_analysis (s : SessionState) : SessionState :=
  { s with
    analysis_completed := false
    document_text := ""
    analysis_result := ""
    assessment_questions := none
    video_script := ""
    video_scripts_by_level := []
    generated_videos := []
    conclusion_content := ""
    quiz_performance := none
    show_doubt_session := false
    show_assessment := false
    show_video_script := false
    show_video_generation := false
    show_conclusion := false
    show_personalized_pdf := false }

/-- Embedding of the assignment `st.session_state.analysis_completed =
True` performed by `UIComponents._process_document` (src/app.py line
926), the operation the specification calls `markAnalysisCompleted`. -/
def markAnalysisCompleted (s : SessionState) : SessionState :=
  { s with analysis_completed := true }

/-- Embedding of the routing in `render_main_content` (src/app.py lines
1459-1487): the upload screen when analysis is not completed, otherwise
the first view in `view_map` order whose flag is set, defaulting to the
analysis results. -/
def render_main_content (s : SessionState) : View :=
  if !s.analysis_completed then View.Upload
  else if s.show_doubt_session then View.DoubtSession
  else if s.show_assessment then View.Assessment
  else if s.show_video_script then View.VideoScript
  else if s.show_video_generation then View.VideoGeneration
  else if s.show_conclusion then View.Conclusion
  else if s.show_personalized_pdf then View.PersonalizedPdf
  else View.Analysis

/-- Activity of one view in a session state, read directly off the
flags, following the routing order of `render_main_content` (the
for-loop over `view_map` breaks at the first set flag). -/
def isActiveView (v : View) (s : SessionState) : Bool :=
  match v with
  | View.Upload => !s.analysis_completed
  | View.DoubtSession => s.analysis_completed && s.show_doubt_session
  | View.Assessment => s.analysis_completed && !s.show_doubt_session &&
      s.show_assessment
  | View.VideoScript => s.analysis_completed && !s.show_doubt_session &&
      !s.show_assessment && s.show_video_script
  | View.VideoGeneration => s.analysis_completed && !s.show_doubt_session &&
      !s.show_assessment && !s.show_video_script && s.show_video_generation
  | View.Conclusion => s.analysis_completed && !s.show_doubt_session &&
      !s.show_assessment && !s.show_video_script && !s.show_video_generation &&
      s.show_conclusion
  | View.PersonalizedPdf => s.analysis_completed && !s.show_doubt_session &&
      !s.show_assessment && !s.show_video_script && !s.show_video_generation &&
      !s.show_conclusion && s.show_personalized_pdf
  | View.Analysis => s.analysis_completed && !s.show_doubt_session &&
      !s.show_assessment && !s.show_video_script && !s.show_video_generation &&
      !s.show_conclusion && !s.show_personalized_pdf

/-- The eight views, in a fixed enumeration order. -/
def allViews : List View :=
  [View.Upload, View.Analysis, View.DoubtSession, View.Assessment,
   View.VideoScript, View.VideoGeneration, View.Conclusion,
   View.PersonalizedPdf]

/-- The views active in a state, among the eight. -/
def activeViews (s : SessionState) : List View :=
  allViews.filter (fun v => isActiveView v s)

/-- The six valid action-view identifiers, in the order their `show_*`
keys appear in `DEFAULT_VALUES` (the order `set_view` enumerates). -/
def actionViewIds : List String :=
  ["doubt_session", "assessment", "video_script", "video_generation",
   "conclusion", "personalized_pdf"]

/-- The seven identifiers actually passed to `set_view` by the code:
the empty reset identifier plus the six action-view identifiers. -/
def validViewIds : List String := "" :: actionViewIds

/-- The view an identifier names once analysis is completed: the empty
reset identifier (and any unknown identifier) yields the analysis
results view. -/
def viewOfId (v : String) : View :=
  if v = "doubt_session" then View.DoubtSession
  else if v = "assessment" then View.Assessment
  else if v = "video_script" then View.VideoScript
  else if v = "video_generation" then View.VideoGeneration
  else if v = "conclusion" then View.Conclusion
  else if v = "personalized_pdf" then View.PersonalizedPdf
  else View.Analysis

/-- The six `show_*` flags of a state, in `DEFAULT_VALUES` order. -/
def showFlags (s : SessionState) : List Bool :=
  [s.show_doubt_session, s.show_assessment, s.show_video_script,
   s.show_video_generation, s.show_conclusion, s.show_personalized_pdf]

/-- One typed element of the paginated export document, as produced by
the line loop of `PDFGenerator.create_pdf_from_content`. -/
inductive Block where
  | Title (text : String)
  | Heading (text : String)
  | Subheading (text : String)
  | Body (text : String)
  | Spacer
  deriving DecidableEq, Repr

/-- The characters removed by Python `str.strip()` with no argument:
ASCII whitespace. -/
def isPySpace (c : Char) : Bool :=
  c = ' ' || c = '\t' || c = '\n' || c = '\r' || c = '\x0b' || c = '\x0c'

/-- Python `str.strip()`: remove leading and trailing whitespace. -/
def pyStrip (s : String) : String :=
  ⟨((s.data.dropWhile isPySpace).reverse.dropWhile isPySpace).reverse⟩

/-- Split a character list at every occurrence of a separator; the
empty list yields one empty piece, and n separators yield n+1 pieces,
exactly as Python `str.split` with an explicit separator. -/
def splitOnChar (sep : Char) : List Char → List (List Char)
  | [] => [[]]
  | c :: rest =>
    let r := splitOnChar sep rest
    if c = sep then [] :: r
    else
      match r with
      | [] => [[c]]
      | h :: t => (c :: h) :: t

/-- Python `content.split` at the newline character. -/
def pySplitNewline (s : String) : List String :=
  (splitOnChar '\n' s.data).map (fun cs => ⟨cs⟩)

/-- Python `str.startswith`. -/
def pyStartsWith (s pre : String) : Bool := pre.data.isPrefixOf s.data

/-- Python slicing `s[n:]` for a nonnegative index. -/
def pyDrop (s : String) (n : Nat) : String := ⟨s.data.drop n⟩

/-- One iteration of the line loop in
`PDFGenerator.create_pdf_from_content` (src/app.py lines 735-763): the
accumulator carries the `story` list and the `current_section` counter.
The line is stripped; an empty line appends a `Spacer` and continues;
otherwise a line opening a section advances `current_section` (when no
generated images exist, which is the text-only path modelled here, the
image lookup finds nothing and appends nothing), and the line is
classified by its prefix. -/
def processLine (acc : List Block × Nat) (rawLine : String) : List Block × Nat :=
  let line := pyStrip rawLine
  if line = "" then (acc.1 ++ [Block.Spacer], acc.2)
  else
    let sec := if pyStartsWith line "# " || pyStartsWith line "## " then
      acc.2 + 1 else acc.2
    if pyStartsWith line "# " then (acc.1 ++ [Block.Title (pyDrop line 2)], sec)
    else if pyStartsWith line "## " then
      (acc.1 ++ [Block.Heading (pyDrop line 3)], sec)
    else if pyStartsWith line "### " then
      (acc.1 ++ [Block.Subheading (pyDrop line 4)], sec)
    else (acc.1 ++ [Block.Body line], sec)

/-- Embedding of the text path of
`PDFGenerator.create_pdf_from_content` (src/app.py lines 730-763): the
content string is split on newline characters and the line loop is run
over the pieces; the resulting `story` is the block sequence handed to
the layout engine. -/
def create_pdf_from_content (content : String) : List Block :=
  ((pySplitNewline content).foldl processLine ([], 0)).1

/-- Per-line classification as the specification states it: trim, then
an empty line is a `Spacer`; a line opening with hash-space is a
`Title` with the two-character prefix removed; else double-hash-space a
`Heading` (three characters removed); else triple-hash-space a
`Subheading` (four characters removed); else a `Body` carrying the full
trimmed line. -/
def classifyLine (rawLine : String) : Block :=
  let line := pyStrip rawLine
  if line = "" then Block.Spacer
  else if pyStartsWith line "# " then Block.Title (pyDrop line 2)
  else if pyStartsWith line "## " then Block.Heading (pyDrop line 3)
  else if pyStartsWith line "### " then Block.Subheading (pyDrop line 4)
  else Block.Body line

/-! Helper lemmas shared by the claim theorems. -/

/-- After `set_view` with any of the seven identifiers the code passes,
in a state with analysis completed, exactly the named view is active
among the eight. -/
lemma activeViews_set_view (s : SessionState) (hc : s.analysis_completed = true)
    (v : String) (hv : v ∈ validViewIds) :
    activeViews (set_view v s) = [viewOfId v] := by
  simp only [validViewIds, actionViewIds, List.mem_cons, List.not_mem_nil,
    or_false] at hv
  rcases hv with rfl | rfl | rfl | rfl | rfl | rfl | rfl <;>
    simp [activeViews, allViews, isActiveView, set_view, viewOfId, hc,
      List.filter]

/-- The `story` component of one loop iteration appends exactly the
classification of the processed line. -/
lemma processLine_fst (acc : List Block × Nat) (l : String) :
    (processLine acc l).1 = acc.1 ++ [classifyLine l] := by
  unfold processLine classifyLine
  dsimp only
  split_ifs <;> rfl

/-- Running the line loop maps classification over the lines, appended
to whatever story the accumulator already holds. -/
lemma foldl_processLine (lines : List String) (acc : List Block × Nat) :
    (lines.foldl processLine acc).1 = acc.1 ++ lines.map classifyLine := by
  induction lines generalizing acc with
  | nil => simp
  | cons l rest ih => simp [ih, processLine_fst]

/-- Prepending the fixed key prefix to view identifiers is injective. -/
lemma show_prefix_inj {a b : String} (h : "show_" ++ a = "show_" ++ b) :
    a = b := by
  have hd : "show_".data ++ a.data = "show_".data ++ b.data :=
    congrArg String.data h
  exact String.ext (List.append_cancel_left hd)

/-! Claim theorems. -/

/-- Claim C1: after analysis is marked completed, for every sequence of
`set_view` calls with valid identifiers, exactly one of the eight views
is active after each call, and the active view equals the view named by
the last identifier passed, with the empty reset identifier naming the
Analysis view (the state in which no `show_*` flag is true). -/
theorem set_view_sequence_tracks_last_identifier (s : SessionState)
    (ids : List String) (hc : s.analysis_completed = true) (hne : ids ≠ [])
    (hvalid : ∀ v ∈ ids, v ∈ validViewIds) :
    activeViews (ids.foldl (fun t v => set_view v t) s) =
      [viewOfId (ids.getLastD "")] := by
  induction ids generalizing s with
  | nil => exact absurd rfl hne
  | cons a l ih =>
    cases l with
    | nil => simpa using activeViews_set_view s hc a (hvalid a (by simp))
    | cons b m =>
      have h1 : (set_view a s).analysis_completed = true := by
        simpa [set_view] using hc
      have h2 := ih (set_view a s) h1 (by simp)
        (fun v hv => hvalid v (List.mem_cons_of_mem a hv))
      simpa [List.getLastD_cons] using h2

/-- Witness for C1 at a concrete completed state and the sequence
switching to the assessment view and then back via the reset
identifier: the one active view is Analysis. -/
theorem set_view_sequence_tracks_last_identifier_witness :
    activeViews ((["assessment", ""].foldl (fun t v => set_view v t))
      { DEFAULT_VALUES with analysis_completed := true }) = [viewOfId ""] :=
  set_view_sequence_tracks_last_identifier
    { DEFAULT_VALUES with analysis_completed := true } ["assessment", ""]
    rfl (by simp) (by decide)

/-- Claim C2: from every prior state, `reset_analysis` restores the
initial state: analysis not completed, empty document text, every
artifact store at its default, no quiz performance, every `show_*` flag
false, and the rendered view is the upload screen. -/
theorem reset_analysis_restores_initial_state (s : SessionState) :
    (reset_analysis s).analysis_completed = false ∧
    (reset_analysis s).document_text = "" ∧
    (reset_analysis s).analysis_result = "" ∧
    (reset_analysis s).assessment_questions = none ∧
    (reset_analysis s).video_script = "" ∧
    (reset_analysis s).video_scripts_by_level = [] ∧
    (reset_analysis s).generated_videos = [] ∧
    (reset_analysis s).conclusion_content = "" ∧
    (reset_analysis s).quiz_performance = none ∧
    showFlags (reset_analysis s) = [false, false, false, false, false, false] ∧
    render_main_content (reset_analysis s) = View.Upload :=
  ⟨rfl, rfl, rfl, rfl, rfl, rfl, rfl, rfl, rfl, rfl, rfl⟩

/-- Claim C3: the document renderer classifies each physical line
independently and in input order — its output is exactly the per-line
classification (trim; blank to Spacer, one per blank line with no
collapsing; hash-space prefixes to Title, Heading, Subheading with the
prefix removed; anything else to Body with the full trimmed text)
mapped over the newline-split input; in particular a hash with no
following space falls through to a Body block. -/
theorem renderer_classifies_lines_locally (content : String) :
    create_pdf_from_content content =
      (pySplitNewline content).map classifyLine ∧
    classifyLine "#NoSpace" = Block.Body "#NoSpace" := by
  refine ⟨?_, by decide⟩
  simpa [create_pdf_from_content] using
    foldl_processLine (pySplitNewline content) ([], 0)

/-- Counterexample to claim C4: on the stated input the renderer does
not produce the stated five-block sequence. -/
theorem renderer_heading_example_not_five_blocks :
    create_pdf_from_content "# Title\n\n## Section\ntext line\n### Sub\n" ≠
      [Block.Title "Title", Block.Spacer, Block.Heading "Section",
       Block.Body "text line", Block.Subheading "Sub"] := by decide

/-- Claim C4 as amended: the input `"# Title\n\n## Section\ntext
line\n### Sub\n"` produces exactly 6 blocks — the five blocks claimed
followed by one more Spacer, because splitting at newlines turns the
trailing newline into a final empty line, which yields a Spacer. -/
theorem renderer_heading_example_six_blocks :
    create_pdf_from_content "# Title\n\n## Section\ntext line\n### Sub\n" =
      [Block.Title "Title", Block.Spacer, Block.Heading "Section",
       Block.Body "text line", Block.Subheading "Sub", Block.Spacer] := by
  decide

/-- Counterexample to claim C5: the empty input does not produce an
empty block sequence. -/
theorem renderer_empty_input_not_empty_output :
    create_pdf_from_content "" ≠ [] := by decide

/-- Claim C5 as amended: on the empty string the renderer produces
exactly one Spacer block (splitting the empty string at newlines yields
one empty line, classified as a Spacer) and no error. -/
theorem renderer_empty_input_single_spacer :
    create_pdf_from_content "" = [Block.Spacer] := by decide

/-- Claim C6: marking analysis completed is idempotent — doing it twice
equals doing it once, and when the flag is already true the operation
leaves the whole state unchanged. -/
theorem markAnalysisCompleted_idempotent (s : SessionState) :
    markAnalysisCompleted (markAnalysisCompleted s) = markAnalysisCompleted s ∧
    (s.analysis_completed = true → markAnalysisCompleted s = s) := by
  refine ⟨rfl, fun h => ?_⟩
  cases s
  simp_all [markAnalysisCompleted]

/-- Witness for C6 at a concrete state whose flag is already true. -/
theorem markAnalysisCompleted_idempotent_witness :
    markAnalysisCompleted (markAnalysisCompleted
      { DEFAULT_VALUES with analysis_completed := true }) =
      markAnalysisCompleted { DEFAULT_VALUES with analysis_completed := true } ∧
    markAnalysisCompleted { DEFAULT_VALUES with analysis_completed := true } =
      { DEFAULT_VALUES with analysis_completed := true } :=
  ⟨(markAnalysisCompleted_idempotent
      { DEFAULT_VALUES with analysis_completed := true }).1,
   (markAnalysisCompleted_idempotent
      { DEFAULT_VALUES with analysis_completed := true }).2 rfl⟩

/-- Counterexample to claim C7: an identifier outside the enumeration
is not rejected — `set_view` silently produces the same valid view
state as the reset identifier, here the Analysis view. -/
theorem set_view_invalid_identifier_not_rejected :
    set_view "invalid_identifier"
        { DEFAULT_VALUES with analysis_completed := true } =
      set_view "" { DEFAULT_VALUES with analysis_completed := true } ∧
    activeViews (set_view "invalid_identifier"
      { DEFAULT_VALUES with analysis_completed := true }) = [View.Analysis] := by
  constructor <;> rfl

/-- Claim C7 as amended: `set_view` has no failure mode at all — every
identifier outside the six action-view identifiers (valid or not)
clears all `show_*` flags, producing exactly the state the reset
identifier produces, rather than being rejected with an error. -/
theorem set_view_invalid_identifier_acts_as_reset (s : SessionState)
    (v : String) (hv : v ∉ actionViewIds) :
    set_view v s = set_view "" s := by
  have hne : ∀ suf ∈ actionViewIds, v ≠ suf := fun suf hsuf heq => hv (heq ▸ hsuf)
  have h1 : ("show_doubt_session" == "show_" ++ v) = false :=
    beq_eq_false_iff_ne.mpr fun h => hne "doubt_session" (by simp [actionViewIds])
      (show_prefix_inj (a := "doubt_session") h).symm
  have h2 : ("show_assessment" == "show_" ++ v) = false :=
    beq_eq_false_iff_ne.mpr fun h => hne "assessment" (by simp [actionViewIds])
      (show_prefix_inj (a := "assessment") h).symm
  have h3 : ("show_video_script" == "show_" ++ v) = false :=
    beq_eq_false_iff_ne.mpr fun h => hne "video_script" (by simp [actionViewIds])
      (show_prefix_inj (a := "video_script") h).symm
  have h4 : ("show_video_generation" == "show_" ++ v) = false :=
    beq_eq_false_iff_ne.mpr fun h => hne "video_generation"
      (by simp [actionViewIds]) (show_prefix_inj (a := "video_generation") h).symm
  have h5 : ("show_conclusion" == "show_" ++ v) = false :=
    beq_eq_false_iff_ne.mpr fun h => hne "conclusion" (by simp [actionViewIds])
      (show_prefix_inj (a := "conclusion") h).symm
  have h6 : ("show_personalized_pdf" == "show_" ++ v) = false :=
    beq_eq_false_iff_ne.mpr fun h => hne "personalized_pdf"
      (by simp [actionViewIds]) (show_prefix_inj (a := "personalized_pdf") h).symm
  simp [set_view, h1, h2, h3, h4, h5, h6]

/-- Witness for the amended C7 at a concrete unknown identifier. -/
theorem set_view_invalid_identifier_acts_as_reset_witness :
    set_view "garbage" DEFAULT_VALUES = set_view "" DEFAULT_VALUES :=
  set_view_invalid_identifier_acts_as_reset DEFAULT_VALUES "garbage" (by decide)

/-- Claim C8: `set_view` has no internal gate on `analysis_completed`:
for every action-view identifier and every state — including states
where analysis is not completed — the call sets exactly the requested
view's flag (and clears the other five) and leaves
`analysis_completed` unchanged, rather than rejecting the call. -/
theorem set_view_ungated_by_analysis_completed (s : SessionState) (v : String)
    (hv : v ∈ actionViewIds) :
    showFlags (set_view v s) = actionViewIds.map (fun w => w == v) ∧
    (set_view v s).analysis_completed = s.analysis_completed := by
  refine ⟨?_, rfl⟩
  simp only [actionViewIds, List.mem_cons, List.not_mem_nil, or_false] at hv
  rcases hv with rfl | rfl | rfl | rfl | rfl | rfl <;>
    simp [showFlags, set_view, actionViewIds]

/-- Witness for C8 at the default state, in which analysis is not
completed, requesting the assessment view. -/
theorem set_view_ungated_by_analysis_completed_witness :
    showFlags (set_view "assessment" DEFAULT_VALUES) =
      actionViewIds.map (fun w => w == "assessment") ∧
    (set_view "assessment" DEFAULT_VALUES).analysis_completed =
      DEFAULT_VALUES.analysis_completed :=
  set_view_ungated_by_analysis_completed DEFAULT_VALUES "assessment" (by decide)

/-- Claim C9: `set_view` modifies only the `show_*` flags — for every
state and every identifier, the document text, the completion flag, the
quiz performance, and every stored artifact are unchanged. -/
theorem set_view_preserves_non_view_fields (s : SessionState) (v : String) :
    (set_view v s).document_text = s.document_text ∧
    (set_view v s).analysis_completed = s.analysis_completed ∧
    (set_view v s).quiz_performance = s.quiz_performance ∧
    (set_view v s).analysis_result = s.analysis_result ∧
    (set_view v s).assessment_questions = s.assessment_questions ∧
    (set_view v s).video_script = s.video_script ∧
    (set_view v s).video_scripts_by_level = s.video_scripts_by_level ∧
    (set_view v s).generated_videos = s.generated_videos ∧
    (set_view v s).conclusion_content = s.conclusion_content ∧
    (set_view v s).selected_language = s.selected_language ∧
    (set_view v s).language_code = s.language_code ∧
    (set_view v s).user_email = s.user_email :=
  ⟨rfl, rfl, rfl, rfl, rfl, rfl, rfl, rfl, rfl, rfl, rfl, rfl⟩

/-- Claim C10: `reset_analysis` preserves the user's identity and
language settings — the selected language, language code and user email
are unchanged for every prior state. -/
theorem reset_analysis_preserves_identity_fields (s : SessionState) :
    (reset_analysis s).selected_language = s.selected_language ∧
    (reset_analysis s).language_code = s.language_code ∧
    (reset_analysis s).user_email = s.user_email :=
  ⟨rfl, rfl, rfl⟩

end VideoLearning
